import Mathlib

/-
Verification of the `sea_orm_builder` repository.

Part 1 embeds the runtime behaviour of the builders that the derive macros
in `sea_orm_builder_derive/src/gen.rs` generate: the types of
`src/lib.rs` (`SeaOrmBuilderError`, `WhereParam`, `WhereValue`) and the
state transitions performed by the generated fluent methods and terminal
`build` / `build_with_params` operations.

Part 2 embeds the schema extractor `sea_orm_builder_derive/src/ast.rs`
(`collect`, `parse_sea_builder_attrs`, `parse_ops_nested`, `to_camel`).

Part 3 embeds the shape of the code generator
`sea_orm_builder_derive/src/gen.rs` (`gen_where_pieces` and the per-kind
method collection loops), at the level of which artifacts are emitted for
each (field, operation) pair.

The element type of a field is a type parameter `α`; the Rust `Debug`
rendering of an element is a parameter `dbg : α → String`.
-/

set_option autoImplicit false

namespace SeaOrmBuilder

variable {α : Type}

/-- Build-time error type (src/lib.rs lines 29-35, `SeaOrmBuilderError`). -/
inductive SeaOrmBuilderError where
  | NoWhere
  | NoSet
deriving DecidableEq, Repr

/-- Rendered value in a where-clause record (src/lib.rs lines 48-53,
`WhereValue`): `Single` for scalars, `List` for in/not_in, `Range` for
between, with fields start/end modelled as `rstart`/`rend`. -/
inductive WhereValue where
  | Single (s : String)
  | List (ss : List String)
  | Range (rstart rend : String)
deriving DecidableEq, Repr

/-- One where-clause record (src/lib.rs lines 41-46, `WhereParam`). -/
structure WhereParam where
  field : String
  op : String
  value : WhereValue
deriving DecidableEq, Repr

/-- Rust's derived `Debug` for `Option<T>`: `None`, or `Some(...)` around the
`Debug` of the payload.  The generated scalar setter formats the
just-assigned storage slot with `format!("{:?}", &self.slot)`
(gen.rs line 305), so this wrapper shows up in `Single` records. -/
def optionDebug (dbg : α → String) : Option α → String
  | Option.none => "None"
  | Option.some v => "Some(" ++ dbg v ++ ")"

/-- Contents of one generated storage slot: scalar operations store
`Option<T>`, in/not_in store `Option<Vec<T>>`, between stores
`Option<(T, T)>` (gen.rs lines 295, 316-317, 338-339, 360). -/
inductive SlotVal (α : Type) where
  | scalar (v : α)
  | list (vs : List α)
  | pair (a b : α)
deriving DecidableEq, Repr

/-- The family of per-(field, op) storage slots of a generated builder,
indexed by field name and operation token; every slot starts as `None`. -/
def Storage (α : Type) : Type := String → String → Option (SlotVal α)

def Storage.empty : Storage α := fun _ _ => Option.none

/-- Assign one storage slot, leaving all other slots unchanged (each
generated fluent method writes exactly its own slot). -/
def Storage.set (st : Storage α) (field op : String) (v : SlotVal α) : Storage α :=
  fun f o => if f = field ∧ o = op then Option.some v else st f o

/-- Argument of a forwarded filter predicate. -/
inductive FilterArg (α : Type) where
  | scalar (v : α)
  | list (vs : List α)
  | pair (a b : α)
deriving DecidableEq, Repr

/-- The narrow collaborator interface consumed from the statement layer:
every fluent call forwards exactly one of these actions.  The underlying
statement is modelled as the ordered list of forwarded actions. -/
inductive StmtAction (α : Type) where
  | filter (field op : String) (arg : FilterArg α)
  | col_expr (field : String) (v : α)
  | order_by (col : String) (asc : Bool)
  | limit (n : Nat)
  | offset (n : Nat)
deriving DecidableEq, Repr

/-- State of a generated builder (the struct bodies emitted at gen.rs
lines 75-82, 168-176, 235-242): the underlying statement, `has_where`,
`set_count` (a field only of the Update builder struct; it stays `0` for
the other kinds), the where-param record list, and the storage slots. -/
structure Builder (α : Type) where
  statement : List (StmtAction α)
  has_where : Bool
  set_count : Nat
  where_params : List WhereParam
  storage : Storage α

/-- `new()` (gen.rs lines 96, 190, 256): fresh statement, `has_where =
false`, `set_count = 0`, empty record list, all slots `None`. -/
def Builder.new : Builder α :=
  { statement := []
    has_where := false
    set_count := 0
    where_params := []
    storage := Storage.empty }

/-- Scalar fluent setter, ops eq/ne/lt/lte/gt/gte/like/ilike (gen.rs lines
299-307): store `Some v`, forward the predicate, set `has_where := true`,
and push a `Single` record holding the `Debug` rendering of the
just-assigned slot `Some v` (the source formats the `Option`, not the bare
value). -/
def where_scalar (dbg : α → String) (field op : String) (v : α) (b : Builder α) : Builder α :=
  { b with
    storage := b.storage.set field op (SlotVal.scalar v)
    statement := b.statement ++ [StmtAction.filter field op (FilterArg.scalar v)]
    has_where := true
    where_params := b.where_params ++
      [⟨field, op, WhereValue.Single (optionDebug dbg (Option.some v))⟩] }

/-- `in` fluent setter (gen.rs lines 321-329): collect the iterator into a
vector, store it, forward `is_in`, set `has_where`, and push a `List`
record of the element `Debug` strings of the just-stored vector. -/
def where_in (dbg : α → String) (field : String) (vs : List α) (b : Builder α) : Builder α :=
  { b with
    storage := b.storage.set field "in" (SlotVal.list vs)
    statement := b.statement ++ [StmtAction.filter field "in" (FilterArg.list vs)]
    has_where := true
    where_params := b.where_params ++ [⟨field, "in", WhereValue.List (vs.map dbg)⟩] }

/-- `not_in` fluent setter (gen.rs lines 343-351), same shape as `in` with
the `is_not_in` predicate. -/
def where_not_in (dbg : α → String) (field : String) (vs : List α) (b : Builder α) : Builder α :=
  { b with
    storage := b.storage.set field "not_in" (SlotVal.list vs)
    statement := b.statement ++ [StmtAction.filter field "not_in" (FilterArg.list vs)]
    has_where := true
    where_params := b.where_params ++ [⟨field, "not_in", WhereValue.List (vs.map dbg)⟩] }

/-- `between` fluent setter (gen.rs lines 364-375): store the pair in
argument order, forward the range predicate, set `has_where`, and push a
`Range` record of the two `Debug` strings (the `if let Some` around the
push always takes the `Some` branch, the slot having just been
assigned). -/
def where_between (dbg : α → String) (field : String) (a bv : α) (b : Builder α) : Builder α :=
  { b with
    storage := b.storage.set field "between" (SlotVal.pair a bv)
    statement := b.statement ++ [StmtAction.filter field "between" (FilterArg.pair a bv)]
    has_where := true
    where_params := b.where_params ++
      [⟨field, "between", WhereValue.Range (dbg a) (dbg bv)⟩] }

/-- `set_<field>` (gen.rs lines 395-406): forward a column assignment and
increment `set_count`; `has_where`, the records and the slots are
untouched. -/
def set_col (field : String) (v : α) (b : Builder α) : Builder α :=
  { b with
    statement := b.statement ++ [StmtAction.col_expr field v]
    set_count := b.set_count + 1 }

/-- `order_by_asc` (gen.rs lines 97-104): pure statement pass-through. -/
def order_by_asc (col : String) (b : Builder α) : Builder α :=
  { b with statement := b.statement ++ [StmtAction.order_by col true] }

/-- `order_by_desc` (gen.rs lines 105-112): pure statement pass-through. -/
def order_by_desc (col : String) (b : Builder α) : Builder α :=
  { b with statement := b.statement ++ [StmtAction.order_by col false] }

/-- `limit` (gen.rs lines 113-119): pure statement pass-through. -/
def limit (n : Nat) (b : Builder α) : Builder α :=
  { b with statement := b.statement ++ [StmtAction.limit n] }

/-- `offset` (gen.rs lines 120-126): pure statement pass-through. -/
def offset (n : Nat) (b : Builder α) : Builder α :=
  { b with statement := b.statement ++ [StmtAction.offset n] }

/-- `is_<field>_<op>()` (gen.rs line 310 and peers): the slot is `Some`. -/
def is_op (st : Storage α) (field op : String) : Bool :=
  (st field op).isSome

/-- `get_<field>_<op>()` for scalar ops (gen.rs line 311): the stored
scalar, if any. -/
def get_scalar (st : Storage α) (field op : String) : Option α :=
  match st field op with
  | Option.some (SlotVal.scalar v) => Option.some v
  | _ => Option.none

/-- `get_<field>_in` / `get_<field>_not_in` (gen.rs lines 333, 355): the
stored list, if any. -/
def get_list (st : Storage α) (field op : String) : Option (List α) :=
  match st field op with
  | Option.some (SlotVal.list vs) => Option.some vs
  | _ => Option.none

/-- `get_<field>_between` (gen.rs line 379): the stored pair in stored
(argument) order, if any. -/
def get_between (st : Storage α) (field : String) : Option (α × α) :=
  match st field "between" with
  | Option.some (SlotVal.pair a b) => Option.some (a, b)
  | _ => Option.none

/-- Params snapshot (the `*Params` structs of gen.rs lines 84-93, 178-187,
244-253): the record list plus the storage slots moved out of the builder;
its accessors read the same slots. -/
structure Params (α : Type) where
  where_params : List WhereParam
  storage : Storage α

/-- Construction of the snapshot inside `build_with_params` (gen.rs lines
131, 202, 265): move the record list and every slot. -/
def build_params (b : Builder α) : Params α :=
  ⟨b.where_params, b.storage⟩

/-- Select `build()` (gen.rs line 129): always returns the statement. -/
def select_build (b : Builder α) : List (StmtAction α) :=
  b.statement

/-- Select `build_with_params()` (gen.rs lines 130-133): always returns the
statement together with the snapshot. -/
def select_build_with_params (b : Builder α) : List (StmtAction α) × Params α :=
  (b.statement, build_params b)

/-- Update `build()` (gen.rs lines 194-198): `NoSet` when `set_count == 0`,
else `NoWhere` when `has_where` is false, else the statement. -/
def update_build (b : Builder α) : Except SeaOrmBuilderError (List (StmtAction α)) :=
  if b.set_count = 0 then Except.error SeaOrmBuilderError.NoSet
  else if b.has_where = false then Except.error SeaOrmBuilderError.NoWhere
  else Except.ok b.statement

/-- Update `build_with_params()` (gen.rs lines 199-204): same checks, then
the statement with the snapshot. -/
def update_build_with_params (b : Builder α) :
    Except SeaOrmBuilderError (List (StmtAction α) × Params α) :=
  if b.set_count = 0 then Except.error SeaOrmBuilderError.NoSet
  else if b.has_where = false then Except.error SeaOrmBuilderError.NoWhere
  else Except.ok (b.statement, build_params b)

/-- Delete `build()` (gen.rs lines 259-262): `NoWhere` when `has_where` is
false, else the statement. -/
def delete_build (b : Builder α) : Except SeaOrmBuilderError (List (StmtAction α)) :=
  if b.has_where = false then Except.error SeaOrmBuilderError.NoWhere
  else Except.ok b.statement

/-- Delete `build_with_params()` (gen.rs lines 263-267). -/
def delete_build_with_params (b : Builder α) :
    Except SeaOrmBuilderError (List (StmtAction α) × Params α) :=
  if b.has_where = false then Except.error SeaOrmBuilderError.NoWhere
  else Except.ok (b.statement, build_params b)

/-- One fluent call on a generated builder (the generated method surface:
filter setters, `set_<field>`, ordering, limit, offset). -/
inductive Call (α : Type) where
  | scalar (field op : String) (v : α)
  | inList (field : String) (vs : List α)
  | notInList (field : String) (vs : List α)
  | betweenOp (field : String) (a b : α)
  | setCol (field : String) (v : α)
  | orderAsc (col : String)
  | orderDesc (col : String)
  | limitBy (n : Nat)
  | offsetBy (n : Nat)

/-- Dispatch one fluent call to its state transition. -/
def applyCall (dbg : α → String) : Call α → Builder α → Builder α
  | Call.scalar f o v => where_scalar dbg f o v
  | Call.inList f vs => where_in dbg f vs
  | Call.notInList f vs => where_not_in dbg f vs
  | Call.betweenOp f a b => where_between dbg f a b
  | Call.setCol f v => set_col f v
  | Call.orderAsc c => order_by_asc c
  | Call.orderDesc c => order_by_desc c
  | Call.limitBy n => limit n
  | Call.offsetBy n => offset n

/-- Run a sequence of fluent calls left to right. -/
def applyAll (dbg : α → String) (calls : List (Call α)) (b : Builder α) : Builder α :=
  calls.foldl (fun acc c => applyCall dbg c acc) b

/-- Filter-producing calls: the four where-setters; `set_<field>`,
ordering, limit and offset produce no filter. -/
def produces_filter : Call α → Bool
  | Call.scalar _ _ _ => true
  | Call.inList _ _ => true
  | Call.notInList _ _ => true
  | Call.betweenOp _ _ _ => true
  | _ => false

/-- Calls that are `set_<field>` assignments. -/
def is_set_call : Call α → Bool
  | Call.setCol _ _ => true
  | _ => false

/-- The where-param record a call appends, if any: filter-producing calls
append exactly one record, all other calls none. -/
def record_of (dbg : α → String) : Call α → Option WhereParam
  | Call.scalar f o v =>
      Option.some ⟨f, o, WhereValue.Single (optionDebug dbg (Option.some v))⟩
  | Call.inList f vs => Option.some ⟨f, "in", WhereValue.List (vs.map dbg)⟩
  | Call.notInList f vs => Option.some ⟨f, "not_in", WhereValue.List (vs.map dbg)⟩
  | Call.betweenOp f a b =>
      Option.some ⟨f, "between", WhereValue.Range (dbg a) (dbg b)⟩
  | _ => Option.none

/-
Part 2: the schema extractor, `sea_orm_builder_derive/src/ast.rs`,
over a model of the `syn` meta trees its callbacks walk.
-/

/-- A nested meta item as `syn` hands it to a `parse_nested_meta` callback:
`ident` is the result of `path.get_ident()` (`none` for multi-segment
paths), `value` is an attached string literal (`name = "lit"`), `nested`
are the parenthesised items below it. -/
inductive MetaItem where
  | mk (ident : Option String) (value : Option String) (nested : List MetaItem)

def MetaItem.ident : MetaItem → Option String
  | MetaItem.mk i _ _ => i

def MetaItem.value : MetaItem → Option String
  | MetaItem.mk _ v _ => v

def MetaItem.nested : MetaItem → List MetaItem
  | MetaItem.mk _ _ n => n

/-- One outer attribute: its path and its parenthesised items. -/
structure SynAttr where
  path : String
  items : List MetaItem

/-- One named struct field with its attributes (inside `Fields::Named`
every field carries an identifier). -/
structure SynField where
  ident : String
  ty : String
  attrs : List SynAttr

/-- `syn::Fields`: named, unnamed (tuple) or unit field lists. -/
inductive SynFields where
  | named (fs : List SynField)
  | unnamed
  | unitFields

/-- `syn::Data`: struct, enum or union. -/
inductive SynData where
  | structData (fields : SynFields)
  | enumData
  | unionData

/-- `syn::DeriveInput`, reduced to what `collect` reads. -/
structure DeriveInput where
  attrs : List SynAttr
  data : SynData

/-- Per-field permissions (ast.rs lines 11-17, `FieldPerms`). -/
structure FieldPerms where
  select_where : List String
  update_where : List String
  update_set : Bool
  delete_where : List String
deriving DecidableEq, Repr

def FieldPerms.default : FieldPerms :=
  ⟨[], [], false, []⟩

/-- One extracted field (ast.rs lines 20-25, `ModelInfoField`). -/
structure ModelInfoField where
  ident : String
  ty : String
  perms : FieldPerms
deriving DecidableEq, Repr

/-- ast.rs `parse_ops_nested` (lines 110-117): push the token of every
single-identifier path in order; a non-identifier path is silently
skipped. -/
def parse_ops_nested (items : List MetaItem) : List String :=
  items.filterMap MetaItem.ident

/-- One item of a `sea_builder` attribute (the closure at ast.rs lines
75-104): recognized contexts `select` / `update` / `delete` collect their
`where` lists (and `set` under `update`); unknown context names are
ignored. -/
def apply_sea_builder_item (perms : FieldPerms) (m : MetaItem) : FieldPerms :=
  match m.ident with
  | Option.some "select" =>
      m.nested.foldl (fun p m2 =>
        match m2.ident with
        | Option.some "where" =>
            { p with select_where := p.select_where ++ parse_ops_nested m2.nested }
        | _ => p) perms
  | Option.some "update" =>
      m.nested.foldl (fun p m2 =>
        match m2.ident with
        | Option.some "where" =>
            { p with update_where := p.update_where ++ parse_ops_nested m2.nested }
        | Option.some "set" => { p with update_set := true }
        | _ => p) perms
  | Option.some "delete" =>
      m.nested.foldl (fun p m2 =>
        match m2.ident with
        | Option.some "where" =>
            { p with delete_where := p.delete_where ++ parse_ops_nested m2.nested }
        | _ => p) perms
  | _ => perms

/-- ast.rs `parse_sea_builder_attrs` (lines 69-108): fold every
`sea_builder` attribute of the field into its permissions. -/
def parse_sea_builder_attrs (attrs : List SynAttr) : FieldPerms :=
  attrs.foldl (fun perms a =>
    if a.path = "sea_builder" then a.items.foldl apply_sea_builder_item perms
    else perms) FieldPerms.default

/-- Capitalize one word: upper-case the first character, lower-case the
rest (the per-word behaviour of heck's upper-camel-case on ASCII). -/
def capitalize_word (s : String) : String :=
  match s.data with
  | [] => ""
  | c :: cs => String.mk (c.toUpper :: cs.map Char.toLower)

/-- ast.rs `to_camel` (lines 119-121), via heck's `to_upper_camel_case`,
modelled for underscore-separated ASCII input: `demo_item` becomes
`DemoItem`. -/
def to_camel (s : String) : String :=
  String.join ((s.splitOn "_").map capitalize_word)

/-- Scan one `sea_orm` attribute's items for `table_name = "..."` (ast.rs
lines 32-41): each occurrence overwrites the accumulator with the
camel-cased name; a `table_name` without a string value is a parse error
propagated out of `collect`. -/
def scan_table_name (acc : Option String) (items : List MetaItem) :
    Except String (Option String) :=
  items.foldl (fun r m =>
    match r with
    | Except.error e => Except.error e
    | Except.ok a =>
        match m.ident with
        | Option.some "table_name" =>
            match m.value with
            | Option.some s => Except.ok (Option.some (to_camel s))
            | Option.none => Except.error "expected string literal"
        | _ => Except.ok a) (Except.ok acc)

/-- The attribute loop of `collect` (ast.rs lines 30-42): visit every
`sea_orm` attribute in order. -/
def scan_attrs (attrs : List SynAttr) : Except String (Option String) :=
  attrs.foldl (fun r a =>
    match r with
    | Except.error e => Except.error e
    | Except.ok acc =>
        if a.path = "sea_orm" then scan_table_name acc a.items
        else Except.ok acc) (Except.ok Option.none)

/-- ast.rs `collect` (lines 28-67): derive the entity name from
`#[sea_orm(table_name = ...)]` with default `"Entity"`, reject non-struct
targets and non-named field lists, and extract every named field's
permissions.  There is no check that the named field list is non-empty. -/
def collect (di : DeriveInput) : Except String (String × List ModelInfoField) :=
  match scan_attrs di.attrs with
  | Except.error e => Except.error e
  | Except.ok pfx =>
      match di.data with
      | SynData.structData (SynFields.named named_fs) =>
          Except.ok (pfx.getD "Entity",
            named_fs.map (fun f => ⟨f.ident, f.ty, parse_sea_builder_attrs f.attrs⟩))
      | SynData.structData _ => Except.error "Expected named fields"
      | _ => Except.error "Select/Update/Delete Builder can only be derived for structs"

/-- Whether the input has the shape `collect` accepts: a struct with a
named field list (of any length, empty included). -/
def has_named_struct (di : DeriveInput) : Bool :=
  match di.data with
  | SynData.structData (SynFields.named _) => true
  | _ => false

/-- `Except.isOk` spelled out for the embedding. -/
def is_ok {ε σ : Type} : Except ε σ → Bool
  | Except.ok _ => true
  | Except.error _ => false

/-
Part 3: the generator shape, `sea_orm_builder_derive/src/gen.rs`
(`gen_where_pieces` and the per-kind collection loops), at the level of
which artifacts are emitted for each (field, operation) pair.
-/

/-- The 11 recognized operation tokens (the match arms of
`gen_where_pieces`, gen.rs lines 292-382). -/
def recognized_ops : List String :=
  ["eq", "ne", "lt", "lte", "gt", "gte", "like", "ilike", "in", "not_in", "between"]

/-- The eight scalar operation tokens (the first match arm,
gen.rs line 293). -/
def scalar_ops : List String :=
  ["eq", "ne", "lt", "lte", "gt", "gte", "like", "ilike"]

/-- The fluent-method artifact generated for one (field, op): either a real
method (with its name and value arity) or the `compile_error!` emitted for
an unrecognized token (gen.rs lines 383-392). -/
inductive GenMethod where
  | fluent (fname : String) (arity : Nat)
  | compile_error (msg : String)
deriving DecidableEq, Repr

/-- The four artifacts `gen_where_pieces` returns: the storage field name,
its initializer, the fluent method, and whether the accessor pair is
emitted.  `none` / `false` stand for the empty token streams of the
unknown-op arm. -/
structure WherePieces where
  storage : Option String
  init_expr : Option String
  method : GenMethod
  accessors : Bool
deriving DecidableEq, Repr

/-- gen.rs `gen_where_pieces` (lines 274-393): scalar ops generate an
arity-1 method, in/not_in an arity-1 (iterable) method, between an arity-2
method; every recognized op gets a storage slot initialized to `None` and
an accessor pair.  Any other token generates no storage, no initializer,
no accessors, and a `compile_error!("unsupported op: ...")` in the method
position. -/
def gen_where_pieces (field op : String) : WherePieces :=
  if op ∈ scalar_ops then
    ⟨Option.some (field ++ "_" ++ op ++ "_val"), Option.some "None",
      GenMethod.fluent (field ++ "_" ++ op) 1, true⟩
  else if op = "in" ∨ op = "not_in" then
    ⟨Option.some (field ++ "_" ++ op ++ "_val"), Option.some "None",
      GenMethod.fluent (field ++ "_" ++ op) 1, true⟩
  else if op = "between" then
    ⟨Option.some (field ++ "_" ++ op ++ "_val"), Option.some "None",
      GenMethod.fluent (field ++ "_" ++ op) 2, true⟩
  else
    ⟨Option.none, Option.none,
      GenMethod.compile_error ("unsupported op: " ++ op), false⟩

/-- The method list collected by `build_select` (gen.rs lines 61-73): one
per (field, op in `select_where`) pair, in declaration order. -/
def select_methods (fields : List ModelInfoField) : List GenMethod :=
  fields.flatMap (fun f => f.perms.select_where.map (fun op => (gen_where_pieces f.ident op).method))

/-- The where-method list collected by `build_update` (gen.rs lines
151-163). -/
def update_methods (fields : List ModelInfoField) : List GenMethod :=
  fields.flatMap (fun f => f.perms.update_where.map (fun op => (gen_where_pieces f.ident op).method))

/-- The where-method list collected by `build_delete` (gen.rs lines
221-233). -/
def delete_methods (fields : List ModelInfoField) : List GenMethod :=
  fields.flatMap (fun f => f.perms.delete_where.map (fun op => (gen_where_pieces f.ident op).method))

/-- gen.rs `expand` (lines 21-49) for the Select kind: run the extractor;
on failure return its diagnostic and never synthesize; on success name the
builder `<prefix>Select` and synthesize its methods. -/
def expand_select (di : DeriveInput) : Except String (String × List GenMethod) :=
  match collect di with
  | Except.error e => Except.error e
  | Except.ok (pfx, fields) => Except.ok (pfx ++ "Select", select_methods fields)

/-
Helper lemmas about the fluent-call state transitions.
-/

theorem applyAll_nil (dbg : α → String) (b : Builder α) : applyAll dbg [] b = b := rfl

theorem applyAll_cons (dbg : α → String) (c : Call α) (cs : List (Call α)) (b : Builder α) :
    applyAll dbg (c :: cs) b = applyAll dbg cs (applyCall dbg c b) := rfl

theorem applyAll_append_single (dbg : α → String) (cs : List (Call α)) (c : Call α)
    (b : Builder α) :
    applyAll dbg (cs ++ [c]) b = applyCall dbg c (applyAll dbg cs b) := by
  simp [applyAll, List.foldl_append]

theorem applyCall_where_params (dbg : α → String) (c : Call α) (b : Builder α) :
    (applyCall dbg c b).where_params = b.where_params ++ (record_of dbg c).toList := by
  cases c <;>
    simp [applyCall, where_scalar, where_in, where_not_in, where_between, set_col,
      order_by_asc, order_by_desc, limit, offset, record_of]

theorem applyCall_has_where (dbg : α → String) (c : Call α) (b : Builder α) :
    (applyCall dbg c b).has_where = (b.has_where || produces_filter c) := by
  cases c <;>
    simp [applyCall, where_scalar, where_in, where_not_in, where_between, set_col,
      order_by_asc, order_by_desc, limit, offset, produces_filter]

theorem applyCall_set_count (dbg : α → String) (c : Call α) (b : Builder α) :
    (applyCall dbg c b).set_count = b.set_count + (if is_set_call c then 1 else 0) := by
  cases c <;>
    simp [applyCall, where_scalar, where_in, where_not_in, where_between, set_col,
      order_by_asc, order_by_desc, limit, offset, is_set_call]

theorem record_of_isSome (dbg : α → String) (c : Call α) :
    (record_of dbg c).isSome = produces_filter c := by
  cases c <;> rfl

theorem applyAll_where_params (dbg : α → String) (calls : List (Call α)) (b : Builder α) :
    (applyAll dbg calls b).where_params =
      b.where_params ++ calls.filterMap (record_of dbg) := by
  induction calls generalizing b with
  | nil => simp [applyAll]
  | cons c cs ih =>
      rw [applyAll_cons, ih, applyCall_where_params, List.filterMap_cons]
      cases h : record_of dbg c <;> simp [h]

theorem applyAll_has_where (dbg : α → String) (calls : List (Call α)) (b : Builder α) :
    (applyAll dbg calls b).has_where = (b.has_where || calls.any produces_filter) := by
  induction calls generalizing b with
  | nil => simp [applyAll]
  | cons c cs ih =>
      rw [applyAll_cons, ih, applyCall_has_where]
      simp [List.any_cons, Bool.or_assoc]

theorem applyAll_set_count (dbg : α → String) (calls : List (Call α)) (b : Builder α) :
    (applyAll dbg calls b).set_count = b.set_count + calls.countP is_set_call := by
  induction calls generalizing b with
  | nil => simp [applyAll]
  | cons c cs ih =>
      rw [applyAll_cons, ih, applyCall_set_count, List.countP_cons]
      cases hc : is_set_call c
      · simp [hc]
      · simp [hc]
        omega

theorem length_filterMap_record (dbg : α → String) (calls : List (Call α)) :
    (calls.filterMap (record_of dbg)).length = calls.countP produces_filter := by
  induction calls with
  | nil => rfl
  | cons c cs ih =>
      rw [List.filterMap_cons]
      cases h : record_of dbg c with
      | none =>
          have hp : produces_filter c = false := by
            rw [← record_of_isSome dbg c, h]
            rfl
          simp [List.countP_cons, hp, ih]
      | some r =>
          have hp : produces_filter c = true := by
            rw [← record_of_isSome dbg c, h]
            rfl
          simp [List.countP_cons, hp, ih]

theorem Storage.set_lookup_same (st : Storage α) (field op : String) (v : SlotVal α) :
    st.set field op v field op = Option.some v := by
  simp [Storage.set]

theorem any_filter_iff_records_ne_nil (dbg : α → String) (calls : List (Call α)) :
    calls.any produces_filter = true ↔ calls.filterMap (record_of dbg) ≠ [] := by
  induction calls with
  | nil => simp
  | cons c cs ih =>
      rw [List.any_cons, List.filterMap_cons]
      cases h : record_of dbg c with
      | none =>
          have hp : produces_filter c = false := by
            rw [← record_of_isSome dbg c, h]
            rfl
          simp [hp, ih]
      | some r =>
          have hp : produces_filter c = true := by
            rw [← record_of_isSome dbg c, h]
            rfl
          simp [hp]

/-
The claims.
-/

/-- C1: for every Update builder state, `build()` and `build_with_params()`
fail with `NoSet` when `set_count = 0` (whatever the filter state, so the
`NoSet` check runs before the `NoWhere` check); otherwise they fail with
`NoWhere` when `has_where` is false; otherwise they succeed.  The last two
conjuncts are the spec's concrete scenarios: a single `set` call and no
filter gives `NoWhere`; a single filter call and no `set` gives `NoSet`. -/
theorem c1_update_terminal_checks (dbg : α → String) (b : Builder α) (v : α) :
    (b.set_count = 0 →
      update_build b = Except.error SeaOrmBuilderError.NoSet ∧
      update_build_with_params b = Except.error SeaOrmBuilderError.NoSet) ∧
    (b.set_count ≠ 0 → b.has_where = false →
      update_build b = Except.error SeaOrmBuilderError.NoWhere ∧
      update_build_with_params b = Except.error SeaOrmBuilderError.NoWhere) ∧
    (b.set_count ≠ 0 → b.has_where = true →
      update_build b = Except.ok b.statement ∧
      update_build_with_params b = Except.ok (b.statement, build_params b)) ∧
    update_build (applyCall dbg (Call.setCol "name" v) Builder.new) =
      Except.error SeaOrmBuilderError.NoWhere ∧
    update_build (applyCall dbg (Call.scalar "id" "eq" v) Builder.new) =
      Except.error SeaOrmBuilderError.NoSet := by
  refine ⟨?_, ?_, ?_, rfl, rfl⟩
  · intro h
    simp [update_build, update_build_with_params, h]
  · intro h1 h2
    simp [update_build, update_build_with_params, h1, h2]
  · intro h1 h2
    simp [update_build, update_build_with_params, h1, h2]

/-- Witness for C1 at the fresh Update builder (zero `set` calls). -/
theorem c1_update_terminal_checks_witness :
    update_build (Builder.new : Builder Nat) = Except.error SeaOrmBuilderError.NoSet ∧
    update_build_with_params (Builder.new : Builder Nat) =
      Except.error SeaOrmBuilderError.NoSet :=
  (c1_update_terminal_checks (fun n : Nat => toString n) Builder.new 0).1 rfl

/-- C2 counterexample: the scalar `eq` setter called with value `1` appends
`Single "Some(1)"` — the debug rendering of the whole storage slot — and
not `Single "1"`, the debug rendering of the value itself, which is what
the claim states. -/
theorem c2_counterexample :
    (where_scalar (fun n : Nat => toString n) "id" "eq" 1 Builder.new).where_params =
      [⟨"id", "eq", WhereValue.Single "Some(1)"⟩] ∧
    WhereValue.Single "Some(1)" ≠ WhereValue.Single (toString (1 : Nat)) := by
  constructor
  · decide
  · decide

/-- C2 amended: each fluent setter appends exactly one record; for the
eight scalar operations its value is `Single` of the debug rendering of
the just-assigned slot `Some(v)`, that is the string `Some(` ++ dbg v ++
`)`; for in/not_in it is `List` of the element debug strings; for between
it is `Range` of the two argument debug strings in argument order. -/
theorem c2_amended_record_shapes (dbg : α → String) (b : Builder α) (field op : String)
    (v a c : α) (vs : List α) (_hop : op ∈ scalar_ops) :
    (where_scalar dbg field op v b).where_params =
      b.where_params ++ [⟨field, op, WhereValue.Single ("Some(" ++ dbg v ++ ")")⟩] ∧
    (where_in dbg field vs b).where_params =
      b.where_params ++ [⟨field, "in", WhereValue.List (vs.map dbg)⟩] ∧
    (where_not_in dbg field vs b).where_params =
      b.where_params ++ [⟨field, "not_in", WhereValue.List (vs.map dbg)⟩] ∧
    (where_between dbg field a c b).where_params =
      b.where_params ++ [⟨field, "between", WhereValue.Range (dbg a) (dbg c)⟩] :=
  ⟨rfl, rfl, rfl, rfl⟩

/-- Witness for C2 (amended) at concrete values. -/
theorem c2_amended_record_shapes_witness :
    (where_scalar (fun n : Nat => toString n) "id" "eq" 1 Builder.new).where_params =
      [⟨"id", "eq", WhereValue.Single ("Some(" ++ toString (1 : Nat) ++ ")")⟩] ∧
    (where_in (fun n : Nat => toString n) "id" [4] Builder.new).where_params =
      [⟨"id", "in", WhereValue.List ([4].map (fun n : Nat => toString n))⟩] ∧
    (where_not_in (fun n : Nat => toString n) "id" [4] Builder.new).where_params =
      [⟨"id", "not_in", WhereValue.List ([4].map (fun n : Nat => toString n))⟩] ∧
    (where_between (fun n : Nat => toString n) "id" 2 3 Builder.new).where_params =
      [⟨"id", "between",
        WhereValue.Range (toString (2 : Nat)) (toString (3 : Nat))⟩] :=
  c2_amended_record_shapes (fun n : Nat => toString n) Builder.new "id" "eq" 1 2 3 [4]
    (by decide)

/-- Concrete derive input: a struct with an empty named field list. -/
def empty_struct_input : DeriveInput :=
  ⟨[], SynData.structData (SynFields.named [])⟩

/-- C3 counterexample: schema extraction accepts a struct declaration with
an empty named field list — `collect` returns `Ok` with the default prefix
and no fields, and the synthesizer is then invoked on it, producing an
`EntitySelect` builder with no fluent methods.  The claim that such a
declaration is rejected before the synthesizer runs is therefore false. -/
theorem c3_counterexample :
    collect empty_struct_input = Except.ok ("Entity", []) ∧
    expand_select empty_struct_input = Except.ok ("EntitySelect", []) := by
  constructor
  · rfl
  · rfl

/-- C3 amended: extraction fails exactly for non-struct targets and for
tuple/unit (non-named) field lists, the attribute scan permitting; a
struct whose named field list is empty is accepted, yielding the default
prefix and an empty field schema. -/
theorem c3_amended_shape_check (di : DeriveInput)
    (h : is_ok (scan_attrs di.attrs) = true) :
    is_ok (collect di) = has_named_struct di ∧
    collect empty_struct_input = Except.ok ("Entity", []) := by
  refine ⟨?_, rfl⟩
  cases hs : scan_attrs di.attrs with
  | error e =>
      rw [hs] at h
      exact absurd h (by simp [is_ok])
  | ok pfx =>
      cases hd : di.data with
      | structData fs =>
          cases fs with
          | named fs2 => simp [collect, hs, hd, is_ok, has_named_struct]
          | unnamed => simp [collect, hs, hd, is_ok, has_named_struct]
          | unitFields => simp [collect, hs, hd, is_ok, has_named_struct]
      | enumData => simp [collect, hs, hd, is_ok, has_named_struct]
      | unionData => simp [collect, hs, hd, is_ok, has_named_struct]

/-- Witness for C3 (amended) at a concrete non-struct input. -/
theorem c3_amended_shape_check_witness :
    is_ok (collect (DeriveInput.mk [] SynData.enumData)) =
      has_named_struct (DeriveInput.mk [] SynData.enumData) ∧
    collect empty_struct_input = Except.ok ("Entity", []) :=
  c3_amended_shape_check (DeriveInput.mk [] SynData.enumData) rfl

/-- C4: an operation token outside the 11 recognized ones makes
`gen_where_pieces` emit a hard `compile_error! (unsupported op)` naming
the token in the method position, with no storage slot, no initializer
and no accessor pair — nothing partial is generated for it; the error
lands in the collected method list of the affected builder; and the
extractor passes such a token through (never silently drops it), so the
synthesizer is the stage that catches it. -/
theorem c4_unknown_op_hard_failure (field op : String) (fields : List ModelInfoField)
    (f : ModelInfoField) (hop : op ∉ recognized_ops) (hf : f ∈ fields)
    (hsel : op ∈ f.perms.select_where) :
    (gen_where_pieces field op).method =
      GenMethod.compile_error ("unsupported op: " ++ op) ∧
    (gen_where_pieces field op).storage = Option.none ∧
    (gen_where_pieces field op).init_expr = Option.none ∧
    (gen_where_pieces field op).accessors = false ∧
    GenMethod.compile_error ("unsupported op: " ++ op) ∈ select_methods fields ∧
    parse_ops_nested [MetaItem.mk (Option.some op) Option.none []] = [op] := by
  simp only [recognized_ops, List.mem_cons, List.mem_singleton, not_or] at hop
  obtain ⟨h1, h2, h3, h4, h5, h6, h7, h8, h9, h10, h11⟩ := hop
  have hpieces : ∀ fname : String,
      gen_where_pieces fname op =
        ⟨Option.none, Option.none,
          GenMethod.compile_error ("unsupported op: " ++ op), false⟩ := by
    intro fname
    simp [gen_where_pieces, scalar_ops, h1, h2, h3, h4, h5, h6, h7, h8, h9, h10, h11]
  refine ⟨?_, ?_, ?_, ?_, ?_, rfl⟩
  · rw [hpieces field]
  · rw [hpieces field]
  · rw [hpieces field]
  · rw [hpieces field]
  · exact List.mem_flatMap.mpr
      ⟨f, hf, List.mem_map.mpr ⟨op, hsel, by rw [hpieces f.ident]⟩⟩

/-- Witness for C4 at the unrecognized token `matches`. -/
theorem c4_unknown_op_hard_failure_witness :
    (gen_where_pieces "id" "matches").method =
      GenMethod.compile_error ("unsupported op: " ++ "matches") ∧
    (gen_where_pieces "id" "matches").storage = Option.none ∧
    (gen_where_pieces "id" "matches").init_expr = Option.none ∧
    (gen_where_pieces "id" "matches").accessors = false ∧
    GenMethod.compile_error ("unsupported op: " ++ "matches") ∈
      select_methods [⟨"id", "u64", ⟨["matches"], [], false, []⟩⟩] ∧
    parse_ops_nested [MetaItem.mk (Option.some "matches") Option.none []] = ["matches"] :=
  c4_unknown_op_hard_failure "id" "matches" [⟨"id", "u64", ⟨["matches"], [], false, []⟩⟩]
    ⟨"id", "u64", ⟨["matches"], [], false, []⟩⟩ (by decide) (by decide) (by decide)

/-- C5: the where-param sequence of any call trace from `new()` is exactly
the per-call records of the filter-producing calls, in call order, and its
length is the number of filter-producing calls — one record per such call
even when it overwrites a slot, and none for `set_<field>`, ordering,
limit or offset calls. -/
theorem c5_where_params_per_call (dbg : α → String) (calls : List (Call α)) :
    (applyAll dbg calls Builder.new).where_params = calls.filterMap (record_of dbg) ∧
    (applyAll dbg calls Builder.new).where_params.length =
      calls.countP produces_filter := by
  constructor
  · rw [applyAll_where_params]
    rfl
  · rw [applyAll_where_params]
    exact length_filterMap_record dbg calls

/-- C6: after any call sequence ending in `f_op(v)`, the accessor pair for
that slot sees the last write: `is` returns true and `get` returns the
last value passed (last-write-wins on the single slot) — for scalar ops,
for in/not_in (the stored list), and for between, whose accessor returns
the pair in argument order. -/
theorem c6_last_write_wins (dbg : α → String) (calls : List (Call α)) (field op : String)
    (v a c : α) (vs : List α) (_hop : op ∈ scalar_ops) :
    (is_op (applyAll dbg (calls ++ [Call.scalar field op v]) Builder.new).storage
        field op = true ∧
      get_scalar (applyAll dbg (calls ++ [Call.scalar field op v]) Builder.new).storage
        field op = Option.some v) ∧
    (is_op (applyAll dbg (calls ++ [Call.inList field vs]) Builder.new).storage
        field "in" = true ∧
      get_list (applyAll dbg (calls ++ [Call.inList field vs]) Builder.new).storage
        field "in" = Option.some vs) ∧
    (is_op (applyAll dbg (calls ++ [Call.notInList field vs]) Builder.new).storage
        field "not_in" = true ∧
      get_list (applyAll dbg (calls ++ [Call.notInList field vs]) Builder.new).storage
        field "not_in" = Option.some vs) ∧
    (is_op (applyAll dbg (calls ++ [Call.betweenOp field a c]) Builder.new).storage
        field "between" = true ∧
      get_between (applyAll dbg (calls ++ [Call.betweenOp field a c]) Builder.new).storage
        field = Option.some (a, c)) := by
  refine ⟨⟨?_, ?_⟩, ⟨?_, ?_⟩, ⟨?_, ?_⟩, ⟨?_, ?_⟩⟩ <;>
    rw [applyAll_append_single] <;>
    simp [applyCall, where_scalar, where_in, where_not_in, where_between,
      is_op, get_scalar, get_list, get_between, Storage.set]

/-- Witness for C6 at concrete values. -/
theorem c6_last_write_wins_witness :
    (is_op (applyAll (fun n : Nat => toString n) [Call.scalar "id" "eq" 1]
        Builder.new).storage "id" "eq" = true ∧
      get_scalar (applyAll (fun n : Nat => toString n) [Call.scalar "id" "eq" 1]
        Builder.new).storage "id" "eq" = Option.some 1) ∧
    (is_op (applyAll (fun n : Nat => toString n) [Call.inList "id" [4, 5]]
        Builder.new).storage "id" "in" = true ∧
      get_list (applyAll (fun n : Nat => toString n) [Call.inList "id" [4, 5]]
        Builder.new).storage "id" "in" = Option.some [4, 5]) ∧
    (is_op (applyAll (fun n : Nat => toString n) [Call.notInList "id" [4, 5]]
        Builder.new).storage "id" "not_in" = true ∧
      get_list (applyAll (fun n : Nat => toString n) [Call.notInList "id" [4, 5]]
        Builder.new).storage "id" "not_in" = Option.some [4, 5]) ∧
    (is_op (applyAll (fun n : Nat => toString n) [Call.betweenOp "id" 2 3]
        Builder.new).storage "id" "between" = true ∧
      get_between (applyAll (fun n : Nat => toString n) [Call.betweenOp "id" 2 3]
        Builder.new).storage "id" = Option.some (2, 3)) :=
  c6_last_write_wins (fun n : Nat => toString n) [] "id" "eq" 1 2 3 [4, 5] (by decide)

/-- C7: Select terminal operations are total — for every call trace
(including the empty one) `build()` returns the statement and
`build_with_params()` returns the statement paired with a snapshot whose
record sequence is the filter-call trace; their result type carries no
`NoWhere`/`NoSet` error. -/
theorem c7_select_build_total (dbg : α → String) (calls : List (Call α)) :
    select_build (applyAll dbg calls Builder.new) =
      (applyAll dbg calls Builder.new).statement ∧
    select_build_with_params (applyAll dbg calls Builder.new) =
      ((applyAll dbg calls Builder.new).statement,
        build_params (applyAll dbg calls Builder.new)) ∧
    (select_build_with_params (applyAll dbg calls Builder.new)).2.where_params =
      calls.filterMap (record_of dbg) ∧
    select_build (Builder.new : Builder α) = [] := by
  refine ⟨rfl, rfl, ?_, rfl⟩
  show (applyAll dbg calls Builder.new).where_params = _
  rw [applyAll_where_params]
  rfl

/-- C8: Delete terminal operations fail with `NoWhere` precisely when
`has_where` is false, which for a trace from `new()` means precisely zero
filter-producing calls; with at least one filter call they succeed,
returning the statement (and the snapshot). -/
theorem c8_delete_nowhere_iff (dbg : α → String) (calls : List (Call α)) (b : Builder α) :
    (delete_build b = Except.error SeaOrmBuilderError.NoWhere ↔ b.has_where = false) ∧
    (delete_build_with_params b = Except.error SeaOrmBuilderError.NoWhere ↔
      b.has_where = false) ∧
    (b.has_where = true →
      delete_build b = Except.ok b.statement ∧
      delete_build_with_params b = Except.ok (b.statement, build_params b)) ∧
    ((applyAll dbg calls Builder.new).has_where = false ↔
      calls.countP produces_filter = 0) ∧
    (calls.countP produces_filter ≠ 0 →
      delete_build (applyAll dbg calls Builder.new) =
        Except.ok (applyAll dbg calls Builder.new).statement) := by
  have hiff : (applyAll dbg calls Builder.new).has_where = false ↔
      calls.countP produces_filter = 0 := by
    rw [applyAll_has_where]
    simp [Builder.new, List.any_eq_false, List.countP_eq_zero]
  refine ⟨?_, ?_, ?_, hiff, ?_⟩
  · cases hb : b.has_where <;> simp [delete_build, hb]
  · cases hb : b.has_where <;> simp [delete_build_with_params, hb]
  · intro h
    simp [delete_build, delete_build_with_params, h]
  · intro h
    have hw : (applyAll dbg calls Builder.new).has_where = true := by
      cases hw0 : (applyAll dbg calls Builder.new).has_where
      · exact absurd (hiff.mp hw0) h
      · rfl
    simp [delete_build, hw]

/-- Witness for C8: the fresh Delete builder fails `NoWhere`; after one
filter call it succeeds. -/
theorem c8_delete_nowhere_iff_witness :
    delete_build (Builder.new : Builder Nat) = Except.error SeaOrmBuilderError.NoWhere ∧
    delete_build (applyAll (fun n : Nat => toString n) [Call.scalar "id" "eq" 1]
        Builder.new) =
      Except.ok (applyAll (fun n : Nat => toString n) [Call.scalar "id" "eq" 1]
        Builder.new).statement := by
  constructor
  · exact (c8_delete_nowhere_iff (fun n : Nat => toString n) [] Builder.new).1.mpr rfl
  · exact (c8_delete_nowhere_iff (fun n : Nat => toString n)
      [Call.scalar "id" "eq" 1] Builder.new).2.2.2.2 (by decide)

/-- C9: reachable-state invariant — from `new()`, which starts with
`has_where` false and no records, every reachable state has `has_where`
true exactly when the record list is non-empty; one call updates
`has_where` to its disjunction with filter-production and appends exactly
that call's record (none for `set_<field>`, ordering, limit, offset). -/
theorem c9_has_where_invariant (dbg : α → String) (calls : List (Call α)) (c : Call α)
    (b : Builder α) :
    ((applyAll dbg calls Builder.new).has_where = true ↔
      (applyAll dbg calls Builder.new).where_params ≠ []) ∧
    (Builder.new : Builder α).has_where = false ∧
    (Builder.new : Builder α).where_params = [] ∧
    (applyCall dbg c b).has_where = (b.has_where || produces_filter c) ∧
    (applyCall dbg c b).where_params = b.where_params ++ (record_of dbg c).toList := by
  refine ⟨?_, rfl, rfl, applyCall_has_where dbg c b, applyCall_where_params dbg c b⟩
  rw [applyAll_has_where, applyAll_where_params]
  simpa [Builder.new] using any_filter_iff_records_ne_nil dbg calls

/-- C10: an empty iterable passed to `in` / `not_in` still counts as a
filter-producing call — the slot stores `Some` of the empty list,
`has_where` becomes true, a record with an empty `List` value is appended,
and a subsequent Delete build (or Update build with one `set` call)
succeeds rather than failing `NoWhere`. -/
theorem c10_empty_in_list (dbg : α → String) (b : Builder α) (field f2 : String) (v : α) :
    (where_in dbg field [] b).has_where = true ∧
    get_list (where_in dbg field [] b).storage field "in" = Option.some [] ∧
    (where_in dbg field [] b).where_params =
      b.where_params ++ [⟨field, "in", WhereValue.List []⟩] ∧
    (where_not_in dbg field [] b).has_where = true ∧
    get_list (where_not_in dbg field [] b).storage field "not_in" = Option.some [] ∧
    (where_not_in dbg field [] b).where_params =
      b.where_params ++ [⟨field, "not_in", WhereValue.List []⟩] ∧
    delete_build (where_in dbg field [] Builder.new) =
      Except.ok (where_in dbg field [] Builder.new).statement ∧
    update_build (set_col f2 v (where_in dbg field [] Builder.new)) =
      Except.ok (set_col f2 v (where_in dbg field [] Builder.new)).statement := by
  refine ⟨rfl, ?_, rfl, rfl, ?_, rfl, rfl, rfl⟩
  · simp [where_in, get_list, Storage.set]
  · simp [where_not_in, get_list, Storage.set]

/-- Witness for C5 at a concrete trace with one filter call, one repeated
filter call and one `set` call. -/
theorem c5_where_params_per_call_witness :
    (applyAll (fun n : Nat => toString n)
        [Call.scalar "id" "eq" 1, Call.scalar "id" "eq" 2, Call.setCol "name" 3]
        Builder.new).where_params =
      [Call.scalar "id" "eq" 1, Call.scalar "id" "eq" 2,
        Call.setCol "name" 3].filterMap (record_of (fun n : Nat => toString n)) ∧
    (applyAll (fun n : Nat => toString n)
        [Call.scalar "id" "eq" 1, Call.scalar "id" "eq" 2, Call.setCol "name" 3]
        Builder.new).where_params.length =
      [Call.scalar "id" "eq" 1, Call.scalar "id" "eq" 2,
        Call.setCol "name" 3].countP produces_filter :=
  c5_where_params_per_call (fun n : Nat => toString n)
    [Call.scalar "id" "eq" 1, Call.scalar "id" "eq" 2, Call.setCol "name" 3]

/-- Witness for C7 at the empty trace. -/
theorem c7_select_build_total_witness :
    select_build (applyAll (fun n : Nat => toString n) [] Builder.new) =
      (applyAll (fun n : Nat => toString n) [] Builder.new).statement ∧
    select_build_with_params (applyAll (fun n : Nat => toString n) [] Builder.new) =
      ((applyAll (fun n : Nat => toString n) [] Builder.new).statement,
        build_params (applyAll (fun n : Nat => toString n) [] Builder.new)) ∧
    (select_build_with_params (applyAll (fun n : Nat => toString n) []
        Builder.new)).2.where_params =
      ([] : List (Call Nat)).filterMap (record_of (fun n : Nat => toString n)) ∧
    select_build (Builder.new : Builder Nat) = [] :=
  c7_select_build_total (fun n : Nat => toString n) []

/-- Witness for C9 at a concrete trace and step. -/
theorem c9_has_where_invariant_witness :
    ((applyAll (fun n : Nat => toString n) [Call.scalar "id" "eq" 1]
        Builder.new).has_where = true ↔
      (applyAll (fun n : Nat => toString n) [Call.scalar "id" "eq" 1]
        Builder.new).where_params ≠ []) ∧
    (Builder.new : Builder Nat).has_where = false ∧
    (Builder.new : Builder Nat).where_params = [] ∧
    (applyCall (fun n : Nat => toString n) (Call.setCol "name" 2)
        Builder.new).has_where =
      ((Builder.new : Builder Nat).has_where ||
        produces_filter (Call.setCol "name" (2 : Nat))) ∧
    (applyCall (fun n : Nat => toString n) (Call.setCol "name" 2)
        Builder.new).where_params =
      (Builder.new : Builder Nat).where_params ++
        (record_of (fun n : Nat => toString n) (Call.setCol "name" 2)).toList :=
  c9_has_where_invariant (fun n : Nat => toString n) [Call.scalar "id" "eq" 1]
    (Call.setCol "name" 2) Builder.new

/-- Witness for C10 at concrete values. -/
theorem c10_empty_in_list_witness :
    (where_in (fun n : Nat => toString n) "id" [] Builder.new).has_where = true ∧
    get_list (where_in (fun n : Nat => toString n) "id" [] Builder.new).storage
      "id" "in" = Option.some [] ∧
    (where_in (fun n : Nat => toString n) "id" [] Builder.new).where_params =
      (Builder.new : Builder Nat).where_params ++
        [⟨"id", "in", WhereValue.List []⟩] ∧
    (where_not_in (fun n : Nat => toString n) "id" [] Builder.new).has_where = true ∧
    get_list (where_not_in (fun n : Nat => toString n) "id" [] Builder.new).storage
      "id" "not_in" = Option.some [] ∧
    (where_not_in (fun n : Nat => toString n) "id" [] Builder.new).where_params =
      (Builder.new : Builder Nat).where_params ++
        [⟨"id", "not_in", WhereValue.List []⟩] ∧
    delete_build (where_in (fun n : Nat => toString n) "id" [] Builder.new) =
      Except.ok (where_in (fun n : Nat => toString n) "id" [] Builder.new).statement ∧
    update_build (set_col "name" 3
        (where_in (fun n : Nat => toString n) "id" [] Builder.new)) =
      Except.ok (set_col "name" 3
        (where_in (fun n : Nat => toString n) "id" [] Builder.new)).statement :=
  c10_empty_in_list (fun n : Nat => toString n) Builder.new "id" "name" 3

end SeaOrmBuilder
